import Mathlib

/-!
Verification of the plotlib core: the property applier (`apply_properties`,
`set_color`, `get_pad_coordinates` from `plotlib/root/tools.py`) and the style
registry (`DotDict`, `Styles`, `merge_dicts` from `plotlib/util.py`), embedded
shallowly: Python dictionaries become insertion-ordered association lists,
target objects become finite attribute tables with an explicit call log, and
Python exceptions become an explicit error type.
-/

namespace Plotlib

/-- A Python value as it occurs in this library: numbers, strings, booleans,
`None`, tuples, lists and (string-keyed) dicts. Dicts are insertion-ordered
association lists, mirroring Python dict iteration order. -/
inductive PVal where
  | vnum : Rat → PVal
  | vstr : String → PVal
  | vbool : Bool → PVal
  | vnone : PVal
  | vtuple : List PVal → PVal
  | vlist : List PVal → PVal
  | vdict : List (String × PVal) → PVal

/-- A Python dict with string keys: an association list in insertion order. -/
abbrev PyDict := List (String × PVal)

/-- The Python type name of a value, as `.__class__` prints it in error
messages (`set` interpolates it into its `TypeError`). The embedding
collapses Python's int and float into one numeric constructor and reports
`int`, the class of the integral literals exercised here. -/
def PVal.className : PVal → String
  | .vnum _ => "int"
  | .vstr _ => "str"
  | .vbool _ => "bool"
  | .vnone => "NoneType"
  | .vtuple _ => "tuple"
  | .vlist _ => "list"
  | .vdict _ => "dict"

/-- `isinstance(v, dict)`. -/
def PVal.isDict : PVal → Bool
  | .vdict _ => true
  | _ => false

/-- `isinstance(v, tuple)`. -/
def PVal.isTuple : PVal → Bool
  | .vtuple _ => true
  | _ => false

/-- `v is None`. -/
def PVal.isNone : PVal → Bool
  | .vnone => true
  | _ => false

/-- Python exceptions raised by this library: `TypeError`, `ValueError`,
`KeyError`, `AttributeError`, and an error raised by an underlying setter
invocation on the target object (not produced by this library itself). -/
inductive PyErr where
  | typeError : String → PyErr
  | valueError : String → PyErr
  | keyError : String → PyErr
  | attributeError : String → PyErr
  | setterError : String → PyErr
deriving Repr, DecidableEq

/-- `d[k] = v` on a Python dict: overwrite in place when `k` is present
(keeping its position), append at the end otherwise. Polymorphic in the
value type: it serves both property dicts and the registry's mapping from
style name to style dict. -/
def setItem {α : Type} (d : List (String × α)) (k : String) (v : α) :
    List (String × α) :=
  if d.any (fun p => p.1 = k) then
    d.map (fun p => if p.1 = k then (k, v) else p)
  else
    d ++ [(k, v)]

/-- `d.update(e)`: `d[k] = v` for each `(k, v)` of `e` in order. -/
def dictUpdate (d e : PyDict) : PyDict :=
  e.foldl (fun acc p => setItem acc p.1 p.2) d

/-- `d[k]` as an option: the first entry with key `k` (unique in a real
Python dict). -/
def dlookup {α : Type} (d : List (String × α)) (k : String) : Option α :=
  (d.find? (fun p => p.1 = k)).map (fun p => p.2)

/-- `merge_dicts(*dicts, cls=cls)` from `plotlib/util.py`: infer the result
class from the first dict argument when `cls` is not given (raising
`TypeError` when no argument is a dict), then build a fresh dict and
`update` it with every dict argument in order, skipping non-dicts. The
class only selects the container type, which the embedding collapses; its
presence (`clsGiven`) still decides whether inference can fail. -/
def merge_dicts (clsGiven : Bool) (dicts : List PVal) : Except PyErr PyDict :=
  if clsGiven ∨ dicts.any PVal.isDict then
    .ok (dicts.foldl
      (fun acc d => match d with
        | .vdict e => dictUpdate acc e
        | _ => acc)
      [])
  else
    .error (.typeError "cannot infer cls as none of the passed objects is of type dict")

/-- A target object of the host plotting library, as `apply_properties` and
`set_color` observe it: a finite attribute table recording, for each attribute
name the object exposes, whether that attribute is callable, plus the set of
callable attributes whose invocation raises (an out-of-range argument, say) —
such errors are the target's, not this library's. -/
structure PyObj where
  attrs : List (String × Bool)
  failing : List String

/-- `getattr(obj, name)` as an option: `some c` when the object has the
attribute (`c` = is it callable), `none` when it does not. -/
def getattrOpt (o : PyObj) (n : String) : Option Bool :=
  (o.attrs.find? (fun p => p.1 = n)).map (fun p => p.2)

/-- `callable(getattr(obj, name, None))`. -/
def isCallable (o : PyObj) (n : String) : Bool :=
  getattrOpt o n = some true

/-- `getattr(obj, "Set" + name, getattr(obj, name, None))` followed by the
`callable` check of `apply_properties`: the name of the setter to invoke,
or `none` when neither resolution yields a callable. -/
def resolveSetter (o : PyObj) (n : String) : Option String :=
  match getattrOpt o ("Set" ++ n) with
  | some c => if c then some ("Set" ++ n) else none
  | none => if isCallable o n then some n else none

/-- One recorded setter invocation: the setter's name and its positional
arguments. -/
abbrev Call := String × List PVal

/-- The positional arguments `apply_properties` passes for a property value:
a tuple is unpacked (`setter(*value)`), anything else is one argument. -/
def argsOf : PVal → List PVal
  | .vtuple xs => xs
  | v => [v]

/-- The `for name, value in six.iteritems(...)` loop of `apply_properties`:
walk the merged dict in order, skip properties with no callable setter,
record each invocation; a setter that raises aborts the loop and its error
propagates (calls already made remain applied). Returns the call log and
the error, if any, that escaped. -/
def applyLoop (o : PyObj) : PyDict → List Call × Option PyErr
  | [] => ([], none)
  | (name, value) :: rest =>
    match resolveSetter o name with
    | none => applyLoop o rest
    | some m =>
      if m ∈ o.failing then ([], some (.setterError m))
      else
        let (l, e) := applyLoop o rest
        ((m, argsOf value) :: l, e)

/-- `apply_properties(obj, props, *_props)` from `plotlib/root/tools.py`:
merge the property sources with `merge_dicts` (no `cls` given), then run
the setter loop. A `TypeError` from the merge escapes exactly like a setter
error would. -/
def apply_properties (o : PyObj) (sources : List PVal) : List Call × Option PyErr :=
  match merge_dicts false sources with
  | .error e => ([], some e)
  | .ok merged => applyLoop o merged

/-- The `funcs` table of `set_color`: flag character to setter names, `none`
for an unknown flag. -/
def colorFuncs : Char → Option (List String)
  | 'l' => some ["SetLineColor"]
  | 'm' => some ["SetMarkerColor"]
  | 'f' => some ["SetFillColor"]
  | 't' => some ["SetTextColor", "SetLabelColor"]
  | _ => none

/-- The positional arguments `set_color` passes: a tuple or a list color is
unpacked (`func(*color)`), anything else is one argument. -/
def colorArgs : PVal → List PVal
  | .vtuple xs => xs
  | .vlist xs => xs
  | v => [v]

/-- The inner `for attr in funcs[flag]` loop of `set_color`: skip names the
target does not expose as a callable, invoke the rest; a raising setter
aborts with its error. -/
def runSetters (o : PyObj) (color : PVal) : List String → List Call × Option PyErr
  | [] => ([], none)
  | a :: rest =>
    if isCallable o a then
      if a ∈ o.failing then ([], some (.setterError a))
      else
        let (l, e) := runSetters o color rest
        ((a, colorArgs color) :: l, e)
    else runSetters o color rest

/-- Run `q` after `p` unless `p` already escaped with an error, concatenating
the call logs (Python sequencing of two loop bodies). -/
def seqRun (p : List Call × Option PyErr) (q : Unit → List Call × Option PyErr) :
    List Call × Option PyErr :=
  match p with
  | (l, some e) => (l, some e)
  | (l, none) =>
    let (l2, e) := q ()
    (l ++ l2, e)

/-- `set_color(obj, color, flags)` from `plotlib/root/tools.py`: for each flag
character in order, raise `ValueError` naming the flag when it is unknown,
otherwise invoke the flag's setters on the target (skipping names that are
not callable on it). -/
def set_color (o : PyObj) (color : PVal) : List Char → List Call × Option PyErr
  | [] => ([], none)
  | f :: rest =>
    match colorFuncs f with
    | none => ([], some (.valueError ("flag '" ++ String.singleton f ++ "' is unknown")))
    | some attrs => seqRun (runSetters o color attrs) (fun _ => set_color o color rest)

/-- `DotDict.__getattr__` from `plotlib/util.py`: attribute access returns
`self[attr]`, translating the `KeyError` of a missing key into an
`AttributeError`. -/
def DotDict.getattr (d : PyDict) (attr : String) : Except PyErr PVal :=
  match dlookup d attr with
  | some v => .ok v
  | none => .error (.attributeError attr)

/-- The state of a `Styles` registry: `_stack`, the stack of active style
names (pushed and popped at the end), and `_styles`, the mapping from style
name to style dict. `set` only ever stores dicts, so the mapping's values
are dicts; the styles this library registers are `DotDict`s, whose attribute
access is `DotDict.getattr`. -/
structure StylesState where
  stack : List String
  styles : List (String × PyDict)

/-- `Styles.DEFAULT_STYLE_NAME`. -/
def DEFAULT_STYLE_NAME : String := "default"

/-- `Styles.__init__`: empty stack, and an empty `DotDict` registered under
the default name. -/
def Styles.init : StylesState :=
  { stack := [], styles := [(DEFAULT_STYLE_NAME, [])] }

/-- `Styles.get(style_name)`: `self._styles[style_name]`, raising `KeyError`
for an unregistered name. -/
def Styles.get (s : StylesState) (name : String) : Except PyErr PyDict :=
  match dlookup s.styles name with
  | some d => .ok d
  | none => .error (.keyError name)

/-- `Styles.set(style_name, style)`: raise `TypeError` (naming the value's
class) when `style` is not a dict, leaving the registry untouched;
otherwise store it under `style_name` and return it. The updated state is
returned alongside the result. -/
def Styles.set (s : StylesState) (name : String) (style : PVal) :
    StylesState × Except PyErr PyDict :=
  match style with
  | .vdict d => ({ s with styles := setItem s.styles name d }, .ok d)
  | v =>
    (s, .error (.typeError
      ("wrong style type '<class '" ++ v.className ++ "'>', must be a dict")))

/-- `Styles.current_style_name`: the last element of the stack, or the
default name when the stack is empty. -/
def Styles.current_style_name (s : StylesState) : String :=
  match s.stack.getLast? with
  | some n => n
  | none => DEFAULT_STYLE_NAME

/-- `Styles.current_style`: `self.get(self.current_style_name)`. -/
def Styles.current_style (s : StylesState) : Except PyErr PyDict :=
  Styles.get s (Styles.current_style_name s)

/-- `Styles.use(style_name)`, the context manager, applied to a scope body:
raise `ValueError` for an unregistered name (state untouched); otherwise
push the name, run the body with the registered style, and pop in the
`finally` clause — on every exit path, the body's error included. The body
maps the state inside the scope and the yielded style to a final state and
an outcome. -/
def Styles.use {α : Type} (s : StylesState) (name : String)
    (body : StylesState → PyDict → StylesState × Except PyErr α) :
    StylesState × Except PyErr α :=
  match dlookup s.styles name with
  | none => (s, .error (.valueError ("cannot use unknown style '" ++ name ++ "'")))
  | some style =>
    let s1 := { s with stack := s.stack ++ [name] }
    let (s2, r) := body s1 style
    ({ s2 with stack := s2.stack.dropLast }, r)

/-- `Styles.__getattr__(attr)`: `getattr(self.current_style, attr)` — the
passthrough to the current style dict, consulted for attributes not
otherwise defined on the registry. -/
def Styles.getattrPy (s : StylesState) (attr : String) : Except PyErr PVal :=
  match Styles.current_style s with
  | .ok d => DotDict.getattr d attr
  | .error e => .error e

/-- Attribute access on an arbitrary value, as `styles.pad.LeftMargin` does
on the value stored under `pad`: `DotDict` lookup on a dict, and an
`AttributeError` on a non-dict value. -/
def PVal.dotattr (v : PVal) (attr : String) : Except PyErr PVal :=
  match v with
  | .vdict d => DotDict.getattr d attr
  | _ => .error (.attributeError attr)

/-- A number, as Python arithmetic requires: a non-numeric operand raises
`TypeError`. -/
def PVal.asNum : PVal → Except PyErr Rat
  | .vnum q => .ok q
  | v => .error (.typeError ("unsupported operand type: " ++ v.className))

/-- `styles.pad.<a>` read as a number in `get_pad_coordinates`: the `pad`
group of the current style of the module's registry, then the margin
attribute, then its numeric value. -/
def padAttr (st : StylesState) (a : String) : Except PyErr Rat := do
  let pad ← Styles.getattrPy st "pad"
  let v ← pad.dotattr a
  v.asNum

/-- The x-position chain of `get_pad_coordinates`: the offset points inwards
from the margin selected by the horizontal alignment. Reads are in the
source's evaluation order (in the centered case `RightMargin` first). -/
def padX (st : StylesState) (h : Char) (ho : Rat) : Except PyErr Rat :=
  if h = 'l' then do
    let lm ← padAttr st "LeftMargin"
    pure (lm + ho)
  else if h = 'c' then do
    let rm ← padAttr st "RightMargin"
    let lm ← padAttr st "LeftMargin"
    pure ((1 - rm + lm) / 2)
  else do
    let rm ← padAttr st "RightMargin"
    pure (1 - rm - ho)

/-- The y-position chain of `get_pad_coordinates`. -/
def padY (st : StylesState) (v : Char) (vo : Rat) : Except PyErr Rat :=
  if v = 't' then do
    let tm ← padAttr st "TopMargin"
    pure (1 - tm - vo)
  else if v = 'c' then do
    let tm ← padAttr st "TopMargin"
    let bm ← padAttr st "BottomMargin"
    pure ((1 - tm + bm) / 2)
  else do
    let bm ← padAttr st "BottomMargin"
    pure (bm + vo)

/-- `get_pad_coordinates(h, v, offset, h_offset, v_offset)` from
`plotlib/root/tools.py`, reading the registry state `st`: validate `h`
against `("l", "c", "r")` and `v` against `("t", "c", "b")` first, raising
`ValueError` naming the bad value and the allowed tuple; then default the
per-axis offsets to `offset` and compute the inward-offset coordinates from
the pad margins of the current style. -/
def get_pad_coordinates (st : StylesState) (h v : Char) (offset : Rat)
    (h_offset v_offset : Option Rat) : Except PyErr (Rat × Rat) :=
  if h ∉ (['l', 'c', 'r'] : List Char) then
    .error (.valueError ("unknown horizontal position '" ++ String.singleton h ++
      "', allowed values are ('l', 'c', 'r')"))
  else if v ∉ (['t', 'c', 'b'] : List Char) then
    .error (.valueError ("unknown vertical position '" ++ String.singleton v ++
      "', allowed values are ('t', 'c', 'b')"))
  else
    let ho := h_offset.getD offset
    let vo := v_offset.getD offset
    do
      let x ← padX st h ho
      let y ← padY st v vo
      pure (x, y)

/-! ### Dictionary lemmas -/

theorem keys_setItem {α : Type} (d : List (String × α)) (k : String) (v : α) :
    (setItem d k v).map Prod.fst =
      if d.any (fun p => p.1 = k) then d.map Prod.fst else d.map Prod.fst ++ [k] := by
  unfold setItem
  split
  · rw [List.map_map]
    apply List.map_congr_left
    intro p _
    by_cases hp : p.1 = k
    · simp [hp]
    · simp [hp]
  · simp

theorem nodup_keys_setItem {α : Type} (d : List (String × α)) (k : String) (v : α)
    (h : (d.map Prod.fst).Nodup) : ((setItem d k v).map Prod.fst).Nodup := by
  rw [keys_setItem]
  split
  · exact h
  · next hk =>
    rw [List.nodup_append]
    refine ⟨h, List.nodup_singleton k, ?_⟩
    intro a ha hb
    rw [List.mem_singleton] at hb
    subst hb
    rw [List.any_eq_true] at hk
    rw [List.mem_map] at ha
    obtain ⟨p, hp, hpa⟩ := ha
    exact hk ⟨p, hp, by simp [hpa]⟩

theorem nodup_keys_dictUpdate (d e : PyDict) (h : (d.map Prod.fst).Nodup) :
    ((dictUpdate d e).map Prod.fst).Nodup := by
  induction e generalizing d with
  | nil => exact h
  | cons p rest ih =>
    exact ih (setItem d p.1 p.2) (nodup_keys_setItem d p.1 p.2 h)

theorem dictUpdate_disjoint (m : PyDict) :
    ∀ acc : PyDict, (m.map Prod.fst).Nodup →
      (∀ p ∈ m, acc.any (fun q => q.1 = p.1) = false) →
      dictUpdate acc m = acc ++ m := by
  induction m with
  | nil => intro acc _ _; simp [dictUpdate]
  | cons p rest ih =>
    intro acc hnd hdisj
    simp only [List.map_cons] at hnd
    have hnd1 := List.nodup_cons.mp hnd
    have hmem : acc.any (fun q => q.1 = p.1) = false := hdisj p (by simp)
    have hstep : setItem acc p.1 p.2 = acc ++ [p] := by
      unfold setItem
      rw [hmem]
      simp
    have hrest : dictUpdate (acc ++ [p]) rest = (acc ++ [p]) ++ rest := by
      apply ih
      · exact hnd1.2
      · intro q hq
        rw [List.any_append]
        have h1 : acc.any (fun r => r.1 = q.1) = false := hdisj q (by simp [hq])
        have h2 : [p].any (fun r => r.1 = q.1) = false := by
          have hne : p.1 ≠ q.1 := by
            intro he
            refine hnd1.1 ?_
            rw [he]
            exact List.mem_map.mpr ⟨q, hq, rfl⟩
          simp [hne]
        simp [h1, h2]
    show dictUpdate (setItem acc p.1 p.2) rest = acc ++ p :: rest
    rw [hstep, hrest]
    simp

theorem dictUpdate_nil (m : PyDict) (h : (m.map Prod.fst).Nodup) :
    dictUpdate [] m = m := by
  have := dictUpdate_disjoint m [] h (fun p _ => rfl)
  simpa using this

theorem dlookup_cons {α : Type} (p : String × α) (rest : List (String × α)) (k : String) :
    dlookup (p :: rest) k = if p.1 = k then some p.2 else dlookup rest k := by
  by_cases hp : p.1 = k
  · rw [dlookup, List.find?_cons_of_pos _ (by simpa using hp), if_pos hp]
    rfl
  · rw [dlookup, List.find?_cons_of_neg _ (by simpa using hp), if_neg hp]
    rfl

theorem dlookup_map_setItem {α : Type} (d : List (String × α)) (k k2 : String) (v : α) (hne : k2 ≠ k) :
    dlookup (d.map (fun p => if p.1 = k then (k, v) else p)) k2 = dlookup d k2 := by
  induction d with
  | nil => rfl
  | cons p rest ih =>
    simp only [List.map_cons]
    by_cases hp : p.1 = k
    · rw [if_pos hp, dlookup_cons, dlookup_cons]
      rw [if_neg (show ((k, v).1 : String) ≠ k2 from fun he => hne he.symm)]
      rw [if_neg (show p.1 ≠ k2 from fun he => hne (hp ▸ he).symm)]
      exact ih
    · rw [if_neg hp, dlookup_cons, dlookup_cons]
      by_cases hpk2 : p.1 = k2
      · rw [if_pos hpk2, if_pos hpk2]
      · rw [if_neg hpk2, if_neg hpk2]
        exact ih

theorem dlookup_setItem_self {α : Type} (d : List (String × α)) (k : String) (v : α) :
    dlookup (setItem d k v) k = some v := by
  unfold setItem
  split
  · next hany =>
    induction d with
    | nil => simp at hany
    | cons p rest ih =>
      simp only [List.map_cons]
      by_cases hp : p.1 = k
      · rw [if_pos hp, dlookup_cons, if_pos rfl]
      · rw [if_neg hp, dlookup_cons, if_neg hp]
        apply ih
        simp only [List.any_cons, Bool.or_eq_true] at hany
        rcases hany with h1 | h1
        · exact absurd (by simpa using h1) hp
        · exact h1
  · next hany =>
    rw [dlookup, List.find?_append]
    have hnone : List.find? (fun p => decide (p.1 = k)) d = none := by
      rw [List.find?_eq_none]
      intro p hp hk
      exact hany (List.any_eq_true.mpr ⟨p, hp, hk⟩)
    rw [hnone, Option.none_or, List.find?_cons_of_pos _ (by simp)]
    rfl

theorem dlookup_setItem_other {α : Type} (d : List (String × α)) (k k2 : String) (v : α) (hne : k2 ≠ k) :
    dlookup (setItem d k v) k2 = dlookup d k2 := by
  unfold setItem
  split
  · exact dlookup_map_setItem d k k2 v hne
  · rw [dlookup, List.find?_append]
    have h1 : List.find? (fun p => decide (p.1 = k2)) [(k, v)] = none := by
      rw [List.find?_eq_none]
      intro p hp
      simp only [List.mem_singleton] at hp
      subst hp
      simpa using fun he => hne he.symm
    rw [h1, Option.or_none]
    rfl

theorem dlookup_dictUpdate (e : PyDict) :
    ∀ d : PyDict, (e.map Prod.fst).Nodup → ∀ k : String,
      dlookup (dictUpdate d e) k =
        match dlookup e k with
        | some v => some v
        | none => dlookup d k := by
  induction e with
  | nil => intro d _ k; rfl
  | cons p rest ih =>
    intro d hnd k
    simp only [List.map_cons] at hnd
    have hnd' := (List.nodup_cons.mp hnd).2
    have hnotin := (List.nodup_cons.mp hnd).1
    show dlookup (dictUpdate (setItem d p.1 p.2) rest) k = _
    rw [ih (setItem d p.1 p.2) hnd' k, dlookup_cons]
    by_cases hk : p.1 = k
    · subst hk
      have hfind : List.find? (fun q => decide (q.1 = p.1)) rest = none := by
        rw [List.find?_eq_none]
        intro q hq hqk
        have hqk2 : q.1 = p.1 := by simpa using hqk
        exact hnotin (List.mem_map.mpr ⟨q, hq, hqk2⟩)
      have hrest : dlookup rest p.1 = none := by
        rw [dlookup, hfind]
        rfl
      simp [hrest, dlookup_setItem_self]
    · rw [if_neg hk, dlookup_setItem_other d p.1 k p.2 (fun he => hk he.symm)]

/-! ### C3: merge order, last-wins and associativity in effect -/

/-- C3: `merge_dicts` merges in order with later mappings overriding earlier
ones on key collision (last-wins), and it is associative in effect: merging
the three dicts `A`, `B`, `C` yields the same mapping as merging the merge
of `A` and `B` with `C`; in particular merging `{"a": 1, "b": 2}` with
`{"b": 3}` gives `{"a": 1, "b": 3}`. The key-uniqueness hypotheses hold for
every real Python dict. -/
theorem merge_dicts_assoc_lastwins (A B C : PyDict)
    (hA : (A.map Prod.fst).Nodup) (hB : (B.map Prod.fst).Nodup) :
    merge_dicts false [.vdict A, .vdict B, .vdict C] =
      (merge_dicts false [.vdict A, .vdict B]).bind
        (fun M => merge_dicts false [.vdict M, .vdict C])
    ∧ (∀ M, merge_dicts false [.vdict A, .vdict B] = .ok M →
        ∀ k, dlookup M k =
          match dlookup B k with
          | some v => some v
          | none => dlookup A k)
    ∧ merge_dicts false [.vdict [("a", PVal.vnum 1), ("b", PVal.vnum 2)],
          .vdict [("b", PVal.vnum 3)]]
        = .ok [("a", PVal.vnum 1), ("b", PVal.vnum 3)] := by
  have e1 : merge_dicts false [.vdict A, .vdict B]
      = .ok (dictUpdate (dictUpdate [] A) B) := rfl
  have hMnodup : ((dictUpdate (dictUpdate [] A) B).map Prod.fst).Nodup :=
    nodup_keys_dictUpdate _ B (nodup_keys_dictUpdate [] A (by simp))
  refine ⟨?_, ?_, ?_⟩
  · rw [e1]
    show Except.ok (dictUpdate (dictUpdate (dictUpdate [] A) B) C)
      = Except.ok (dictUpdate (dictUpdate [] (dictUpdate (dictUpdate [] A) B)) C)
    rw [dictUpdate_nil _ hMnodup]
  · intro M hM k
    rw [e1] at hM
    injection hM with h
    subst h
    rw [dlookup_dictUpdate B _ hB k, dictUpdate_nil A hA]
  · rfl

/-- Witness for C3 at `A = {"a": 1, "b": 2}`, `B = {"b": 3}`, `C = {}`. -/
theorem merge_dicts_assoc_lastwins_witness :
    merge_dicts false [.vdict [("a", PVal.vnum 1), ("b", PVal.vnum 2)],
        .vdict [("b", PVal.vnum 3)]]
      = .ok [("a", PVal.vnum 1), ("b", PVal.vnum 3)] :=
  (merge_dicts_assoc_lastwins [("a", PVal.vnum 1), ("b", PVal.vnum 2)]
    [("b", PVal.vnum 3)] [] (by decide) (by decide)).2.2

/-! ### Applier lemmas -/

theorem applyLoop_nofail (o : PyObj) (h : o.failing = []) (d : PyDict) :
    applyLoop o d =
      (d.flatMap (fun p =>
        match resolveSetter o p.1 with
        | some m => [(m, argsOf p.2)]
        | none => []), none) := by
  induction d with
  | nil => rfl
  | cons p rest ih =>
    cases hr : resolveSetter o p.1 with
    | none => simp [applyLoop, hr, ih]
    | some m => simp [applyLoop, hr, ih, h]

theorem resolveSetter_eq (o : PyObj) (n : String) :
    resolveSetter o n =
      match getattrOpt o ("Set" ++ n) with
      | some true => some ("Set" ++ n)
      | some false => none
      | none =>
        match getattrOpt o n with
        | some true => some n
        | _ => none := by
  cases h1 : getattrOpt o ("Set" ++ n) with
  | some c => cases c <;> simp [resolveSetter, isCallable, h1]
  | none =>
    cases h2 : getattrOpt o n with
    | none => simp [resolveSetter, isCallable, h1, h2]
    | some c => cases c <;> simp [resolveSetter, isCallable, h1, h2]

theorem applyLoop_error_from_failing (o : PyObj) (d : PyDict) :
    ∀ e, (applyLoop o d).2 = some e → ∃ n, e = PyErr.setterError n ∧ n ∈ o.failing := by
  induction d with
  | nil =>
    intro e he
    exact absurd he (by simp [applyLoop])
  | cons p rest ih =>
    intro e he
    unfold applyLoop at he
    cases hr : resolveSetter o p.1 with
    | none =>
      simp only [hr] at he
      exact ih e he
    | some m =>
      simp only [hr] at he
      by_cases hm : m ∈ o.failing
      · rw [if_pos hm] at he
        exact ⟨m, (Option.some.inj he).symm, hm⟩
      · rw [if_neg hm] at he
        cases happ : applyLoop o rest with
        | mk l2 e2 =>
          simp only [happ] at he
          refine ih e ?_
          rw [happ]
          exact he

theorem mergeFold_filter_none (sources : List PVal) :
    ∀ acc : PyDict,
      sources.foldl
          (fun acc d => match d with | PVal.vdict e => dictUpdate acc e | _ => acc) acc
        = (sources.filter (fun v => !v.isNone)).foldl
            (fun acc d => match d with | PVal.vdict e => dictUpdate acc e | _ => acc) acc := by
  induction sources with
  | nil => intro acc; rfl
  | cons s rest ih =>
    intro acc
    cases s <;> simp [List.filter_cons, PVal.isNone, ih]

theorem any_isDict_filter_none (sources : List PVal) :
    (sources.filter (fun v => !v.isNone)).any PVal.isDict = sources.any PVal.isDict := by
  induction sources with
  | nil => rfl
  | cons s rest ih =>
    cases s <;>
      first
        | (rw [List.filter_cons, if_neg (by decide)]
           rw [ih, List.any_cons, show PVal.isDict PVal.vnone = false from rfl,
             Bool.false_or])
        | (rw [List.filter_cons, if_pos (by rfl), List.any_cons, List.any_cons, ih])

theorem apply_properties_skip_none (o : PyObj) (sources : List PVal) :
    apply_properties o sources
      = apply_properties o (sources.filter (fun v => !v.isNone)) := by
  unfold apply_properties merge_dicts
  rw [any_isDict_filter_none, mergeFold_filter_none sources []]

/-! ### C1: setter resolution and tuple dispatch of apply_properties -/

/-- C1: for every target object and property mapping, `apply_properties`
resolves each property name to a setter by first trying the method named
`"Set" + name` and falling back to an attribute named `name`; if neither is
callable the property is silently dropped, contributing no invocation on
the target; a non-tuple value is passed as exactly one positional argument
and a tuple value is unpacked into multiple positional arguments. The
key-uniqueness hypothesis holds for every real Python dict, and the
no-failing-setter hypothesis isolates the applier's own behaviour. -/
theorem apply_properties_setter_dispatch (o : PyObj) (props : PyDict)
    (hnd : (props.map Prod.fst).Nodup) (hfail : o.failing = []) :
    apply_properties o [PVal.vdict props] =
      (props.flatMap (fun p =>
        match getattrOpt o ("Set" ++ p.1) with
        | some true => [(("Set" ++ p.1 : String), argsOf p.2)]
        | some false => []
        | none =>
          match getattrOpt o p.1 with
          | some true => [(p.1, argsOf p.2)]
          | _ => []), none)
    ∧ (∀ xs : List PVal, argsOf (PVal.vtuple xs) = xs)
    ∧ (∀ v : PVal, v.isTuple = false → argsOf v = [v]) := by
  refine ⟨?_, fun xs => rfl, ?_⟩
  · have hmerge : merge_dicts false [PVal.vdict props] = .ok props := by
      show Except.ok (dictUpdate [] props) = Except.ok props
      rw [dictUpdate_nil props hnd]
    have hfg : (fun p : String × PVal =>
        match resolveSetter o p.1 with
        | some m => [(m, argsOf p.2)]
        | none => ([] : List Call)) =
      (fun p : String × PVal =>
        match getattrOpt o ("Set" ++ p.1) with
        | some true => [(("Set" ++ p.1 : String), argsOf p.2)]
        | some false => []
        | none =>
          match getattrOpt o p.1 with
          | some true => [(p.1, argsOf p.2)]
          | _ => []) := by
      funext p
      rw [resolveSetter_eq o p.1]
      cases h1 : getattrOpt o ("Set" ++ p.1) with
      | some c => cases c <;> rfl
      | none =>
        cases h2 : getattrOpt o p.1 with
        | none => rfl
        | some c => cases c <;> rfl
    unfold apply_properties
    rw [hmerge]
    show applyLoop o props = _
    rw [applyLoop_nofail o hfail props, hfg]
  · intro v hv
    cases v <;> first | rfl | simp [PVal.isTuple] at hv

/-- The concrete target for the C1 witness: `SetFoo` and `Bar` are callable,
`SetQux` exists but is not callable, nothing raises. -/
def objC1 : PyObj :=
  { attrs := [("SetFoo", true), ("Bar", true), ("SetQux", false)], failing := [] }

/-- Witness for C1: `Foo` goes through `SetFoo` with one argument, the tuple
`Bar` is unpacked into the fallback callable `Bar`, and `Missing` is
skipped. -/
theorem apply_properties_setter_dispatch_witness :
    apply_properties objC1 [PVal.vdict [("Foo", PVal.vnum 5),
        ("Bar", PVal.vtuple [PVal.vnum 1, PVal.vnum 2]), ("Missing", PVal.vnum 7)]]
      = ([("SetFoo", [PVal.vnum 5]), ("Bar", [PVal.vnum 1, PVal.vnum 2])], none) :=
  (apply_properties_setter_dispatch objC1
    [("Foo", PVal.vnum 5), ("Bar", PVal.vtuple [PVal.vnum 1, PVal.vnum 2]),
     ("Missing", PVal.vnum 7)] (by decide) rfl).1

/-! ### C7: errors of apply_properties -/

/-- C7 counterexample: with the single property source `None` — a sequence
in which `None` entries appear — `apply_properties` itself raises: the
merge cannot infer the result class and fails with `TypeError` before any
setter is consulted. -/
theorem apply_properties_none_source_raises :
    apply_properties { attrs := [("SetFoo", true)], failing := [] } [PVal.vnone]
      = ([], some (PyErr.typeError
          "cannot infer cls as none of the passed objects is of type dict")) := rfl

/-- C7 (amended): for every target and ordered sequence of property sources
of which at least one is a mapping, `apply_properties` itself raises no
error — `None` entries are silently skipped, missing setters are skipped
silently, and only errors raised by the underlying setter invocations
propagate to the caller. -/
theorem apply_properties_error_propagation (o : PyObj) (sources : List PVal)
    (hdict : sources.any PVal.isDict = true) :
    (∀ e, (apply_properties o sources).2 = some e →
        ∃ n, e = PyErr.setterError n ∧ n ∈ o.failing)
    ∧ apply_properties o sources
        = apply_properties o (sources.filter (fun v => !v.isNone)) := by
  constructor
  · intro e he
    have hmerge : merge_dicts false sources
        = .ok (sources.foldl
            (fun acc d => match d with | PVal.vdict e => dictUpdate acc e | _ => acc)
            []) := by
      unfold merge_dicts
      rw [if_pos (Or.inr hdict)]
    unfold apply_properties at he
    rw [hmerge] at he
    exact applyLoop_error_from_failing o _ e he
  · exact apply_properties_skip_none o sources

/-- The concrete target for the C7 witness. -/
def objC7 : PyObj := { attrs := [("SetFoo", true)], failing := [] }

/-- Witness for C7 at a source list with one mapping and one `None` entry:
the `None` entry is skipped. -/
theorem apply_properties_error_propagation_witness :
    apply_properties objC7 [PVal.vdict [("Foo", PVal.vnum 1)], PVal.vnone]
      = apply_properties objC7 [PVal.vdict [("Foo", PVal.vnum 1)]] :=
  (apply_properties_error_propagation objC7
    [PVal.vdict [("Foo", PVal.vnum 1)], PVal.vnone] rfl).2

/-! ### C9: tuple-only unpacking in apply_properties versus set_color -/

/-- C9: `apply_properties` unpacks only values that are exactly tuples — a
list value is passed to the setter as one single positional argument —
whereas `set_color` unpacks both tuple and list color values into multiple
positional arguments: the two operations disagree on list-valued inputs. -/
theorem apply_vs_set_color_list_dispatch (o : PyObj) (xs : List PVal)
    (hc : getattrOpt o "SetLineColor" = some true)
    (hfail : o.failing = []) :
    apply_properties o [PVal.vdict [("LineColor", PVal.vlist xs)]]
      = ([("SetLineColor", [PVal.vlist xs])], none)
    ∧ apply_properties o [PVal.vdict [("LineColor", PVal.vtuple xs)]]
      = ([("SetLineColor", xs)], none)
    ∧ set_color o (PVal.vlist xs) ['l'] = ([("SetLineColor", xs)], none)
    ∧ set_color o (PVal.vtuple xs) ['l'] = ([("SetLineColor", xs)], none) := by
  have hs : ("Set" ++ "LineColor" : String) = "SetLineColor" := rfl
  have hres : resolveSetter o "LineColor" = some "SetLineColor" := by
    rw [resolveSetter_eq, hs, hc]
  have hcall : isCallable o "SetLineColor" = true := by
    simp [isCallable, hc]
  have happly : ∀ v : PVal,
      apply_properties o [PVal.vdict [("LineColor", v)]]
        = ([("SetLineColor", argsOf v)], none) := by
    intro v
    show applyLoop o [("LineColor", v)] = _
    unfold applyLoop
    simp only [hres, hfail]
    simp [applyLoop]
  have hsc : ∀ color : PVal,
      set_color o color ['l'] = ([("SetLineColor", colorArgs color)], none) := by
    intro color
    show seqRun (runSetters o color ["SetLineColor"]) (fun _ => set_color o color []) = _
    simp [runSetters, seqRun, set_color, hcall, hfail]
  exact ⟨happly (PVal.vlist xs), happly (PVal.vtuple xs),
    hsc (PVal.vlist xs), hsc (PVal.vtuple xs)⟩

/-- The concrete target for the C9 witness. -/
def objC9 : PyObj := { attrs := [("SetLineColor", true)], failing := [] }

/-- Witness for C9 at the two-element list `[2, 3]`: one argument through
`apply_properties`, two through `set_color`. -/
theorem apply_vs_set_color_list_dispatch_witness :
    apply_properties objC9
        [PVal.vdict [("LineColor", PVal.vlist [PVal.vnum 2, PVal.vnum 3])]]
      = ([("SetLineColor", [PVal.vlist [PVal.vnum 2, PVal.vnum 3]])], none)
    ∧ set_color objC9 (PVal.vlist [PVal.vnum 2, PVal.vnum 3]) ['l']
      = ([("SetLineColor", [PVal.vnum 2, PVal.vnum 3])], none) :=
  ⟨(apply_vs_set_color_list_dispatch objC9 [PVal.vnum 2, PVal.vnum 3] rfl rfl).1,
   (apply_vs_set_color_list_dispatch objC9 [PVal.vnum 2, PVal.vnum 3] rfl rfl).2.2.1⟩

/-! ### C4: invalid color flags -/

/-- The setter invocations one valid flag of `set_color` produces on a
target: the flag's setter names, skipping those the target does not expose
as a callable, each applied to the (tuple- or list-unpacked) color. -/
def callsForFlag (o : PyObj) (color : PVal) (f : Char) : List Call :=
  ((colorFuncs f).getD []).filterMap
    (fun a => if isCallable o a then some (a, colorArgs color) else none)

theorem runSetters_nofail (o : PyObj) (color : PVal) (h : o.failing = [])
    (attrs : List String) :
    runSetters o color attrs
      = (attrs.filterMap
          (fun a => if isCallable o a then some (a, colorArgs color) else none), none) := by
  induction attrs with
  | nil => rfl
  | cons a rest ih =>
    by_cases hc : isCallable o a = true
    · simp [runSetters, hc, h, ih, List.filterMap_cons]
    · have hc2 : isCallable o a = false := by simpa using hc
      simp [runSetters, hc2, ih, List.filterMap_cons]

/-- C4: for every flag string containing a character outside `{l, m, f, t}`,
`set_color` fails with `ValueError` naming the first offending character,
before any further flags are processed; the setters already invoked for the
earlier valid flags remain in the call log, and within each valid flag any
setter name the target does not expose as a callable is skipped silently
(the `filterMap` inside `callsForFlag`). Setters themselves raising is the
target's concern and excluded by the last hypothesis. -/
theorem set_color_invalid_flag (o : PyObj) (color : PVal)
    (good : List Char) (bad : Char) (rest : List Char)
    (hgood : ∀ c ∈ good, (colorFuncs c).isSome)
    (hbad : colorFuncs bad = none) (hfail : o.failing = []) :
    set_color o color (good ++ bad :: rest)
      = (good.flatMap (callsForFlag o color),
         some (PyErr.valueError ("flag '" ++ String.singleton bad ++ "' is unknown"))) := by
  induction good with
  | nil => simp [set_color, hbad]
  | cons c cs ih =>
    obtain ⟨attrs, hattrs⟩ := Option.isSome_iff_exists.mp (hgood c (by simp))
    have ihh := ih (fun x hx => hgood x (by simp [hx]))
    simp only [List.cons_append, set_color, hattrs]
    rw [runSetters_nofail o color hfail attrs]
    simp [seqRun, ihh, callsForFlag, hattrs]

/-- The concrete target for the C4 witness: a marker-color setter exists but
is not callable. -/
def objC4 : PyObj :=
  { attrs := [("SetLineColor", true), ("SetMarkerColor", false),
      ("SetFillColor", true), ("SetTextColor", true)], failing := [] }

/-- Witness for C4 at flags `"lmxf"`: the line setter was invoked, the
marker setter was skipped silently, the bad flag `x` aborted before `f`. -/
theorem set_color_invalid_flag_witness :
    set_color objC4 (PVal.vnum 2) ['l', 'm', 'x', 'f']
      = ([("SetLineColor", [PVal.vnum 2])],
         some (PyErr.valueError "flag 'x' is unknown")) :=
  set_color_invalid_flag objC4 (PVal.vnum 2) ['l', 'm'] 'x' ['f']
    (by decide) rfl rfl

/-! ### C2: nested use scopes restore the previous style -/

/-- C2: with style names `"a"` and `"b"` registered and the activation stack
empty, a `use("a")` scope containing a nested `use("b")` scope restores the
previous active style exactly on each exit: `current_style_name` is `"a"`
at the point right after only the inner scope has exited, and `"default"`
after both scopes have exited; and for every scope body outcome — an error
included — the pushed name is popped on exit, so the stack depth after an
aborted scope equals the depth before entering it. -/
theorem use_nested_restores (s0 : StylesState) (A B : PyDict)
    (rb : Except PyErr Unit)
    (ha : Styles.get s0 "a" = .ok A) (hb : Styles.get s0 "b" = .ok B)
    (hst : s0.stack = []) :
    (Styles.use s0 "a" (fun s1 _ =>
        let p := Styles.use s1 "b" (fun si _ => (si, rb))
        (p.1, Except.ok (Styles.current_style_name p.1)))).2
      = .ok "a"
    ∧ Styles.current_style_name
        (Styles.use s0 "a" (fun s1 _ =>
          let p := Styles.use s1 "b" (fun si _ => (si, rb))
          (p.1, Except.ok (Styles.current_style_name p.1)))).1
      = "default"
    ∧ ∀ (s : StylesState) (name : String) (r : Except PyErr Unit),
        ((Styles.use s name (fun si _ => (si, r))).1).stack.length
          = s.stack.length := by
  obtain ⟨pa, hfa⟩ : ∃ pa, dlookup s0.styles "a" = some pa := by
    unfold Styles.get at ha
    cases hf : dlookup s0.styles "a" with
    | some pa => exact ⟨pa, rfl⟩
    | none =>
      rw [hf] at ha
      exact Except.noConfusion ha
  obtain ⟨pb, hfb⟩ : ∃ pb, dlookup s0.styles "b" = some pb := by
    unfold Styles.get at hb
    cases hf : dlookup s0.styles "b" with
    | some pb => exact ⟨pb, rfl⟩
    | none =>
      rw [hf] at hb
      exact Except.noConfusion hb
  refine ⟨?_, ?_, ?_⟩
  · simp [Styles.use, hfa, hfb, hst, Styles.current_style_name]
  · simp [Styles.use, hfa, hfb, hst, Styles.current_style_name, DEFAULT_STYLE_NAME]
  · intro s name r
    cases hf : dlookup s.styles name with
    | none => simp [Styles.use, hf]
    | some p => simp [Styles.use, hf]

/-- The concrete registry state for the C2 witness: `"a"` and `"b"`
registered beside the default style, stack empty. -/
def s0C2 : StylesState :=
  { stack := [],
    styles := [("default", []), ("a", [("x", PVal.vnum 1)]), ("b", [])] }

/-- Witness for C2: after the inner `use("b")` scope (whose body aborts with
an error) has exited, the outer scope still observes `"a"`. -/
theorem use_nested_restores_witness :
    (Styles.use s0C2 "a" (fun s1 _ =>
        let p := Styles.use s1 "b"
          (fun si _ =>
            (si, (Except.error (PyErr.valueError "boom") : Except PyErr Unit)))
        (p.1, Except.ok (Styles.current_style_name p.1)))).2
      = .ok "a" :=
  (use_nested_restores s0C2 [("x", PVal.vnum 1)] []
    (Except.error (PyErr.valueError "boom")) rfl rfl rfl).1

/-! ### C5: use of an unregistered name -/

/-- C5: for every name not registered in the style mapping at call time,
`use` fails with the lookup error naming the style — the `ValueError` the
spec's taxonomy calls `NotFound` — and leaves the state, in particular the
activation-stack depth, unchanged. -/
theorem use_unknown_style_fails {α : Type} (s : StylesState) (name : String)
    (body : StylesState → PyDict → StylesState × Except PyErr α)
    (h : dlookup s.styles name = none) :
    Styles.use s name body
      = (s, .error (.valueError ("cannot use unknown style '" ++ name ++ "'")))
    ∧ ((Styles.use s name body).1).stack.length = s.stack.length := by
  have e : Styles.use s name body
      = (s, .error (.valueError ("cannot use unknown style '" ++ name ++ "'"))) := by
    unfold Styles.use
    rw [h]
  exact ⟨e, by rw [e]⟩

/-- Witness for C5: `use("x")` on a fresh registry. -/
theorem use_unknown_style_fails_witness :
    Styles.use Styles.init "x" (fun si _ => (si, Except.ok ()))
      = (Styles.init, .error (.valueError "cannot use unknown style 'x'")) :=
  (use_unknown_style_fails Styles.init "x" (fun si _ => (si, Except.ok ())) rfl).1

/-! ### C6: set validation -/

/-- C6: for every name and every non-mapping value, `set` fails with the
`TypeError` naming the value's class — the spec's `InvalidArgument` — and
registers nothing, so a subsequent `get` of a previously unregistered name
still fails with `KeyError` (`NotFound`); and for every mapping value,
`set` registers or overwrites the style under the name — a subsequent `get`
returns it — and returns the stored style. -/
theorem styles_set_validation (s : StylesState) (name : String) :
    (∀ v : PVal, v.isDict = false →
        Styles.set s name v
          = (s, .error (.typeError
              ("wrong style type '<class '" ++ v.className ++ "'>', must be a dict"))))
    ∧ (∀ v : PVal, v.isDict = false →
        dlookup s.styles name = none →
        Styles.get (Styles.set s name v).1 name = .error (.keyError name))
    ∧ (∀ d : PyDict,
        Styles.get (Styles.set s name (PVal.vdict d)).1 name = .ok d
        ∧ (Styles.set s name (PVal.vdict d)).2 = .ok d) := by
  refine ⟨?_, ?_, ?_⟩
  · intro v hv
    cases v <;> first | rfl | simp [PVal.isDict] at hv
  · intro v hv hmiss
    have h1 : (Styles.set s name v).1 = s := by
      cases v <;> first | rfl | simp [PVal.isDict] at hv
    rw [h1]
    unfold Styles.get
    rw [hmiss]
  · intro d
    constructor
    · show Styles.get { s with styles := setItem s.styles name d } name = .ok d
      unfold Styles.get
      show (match dlookup (setItem s.styles name d) name with
        | some d => Except.ok d
        | none => Except.error (PyErr.keyError name)) = _
      rw [dlookup_setItem_self]
    · rfl

/-- Witness for C6: `set("x", 5)` on a fresh registry raises, `get("x")`
still misses, and a dict registers. -/
theorem styles_set_validation_witness :
    Styles.set Styles.init "x" (PVal.vnum 5)
      = (Styles.init, .error (.typeError
          "wrong style type '<class 'int'>', must be a dict"))
    ∧ Styles.get (Styles.set Styles.init "x" (PVal.vnum 5)).1 "x"
      = .error (.keyError "x")
    ∧ Styles.get (Styles.set Styles.init "x"
        (PVal.vdict [("k", PVal.vstr "v")])).1 "x"
      = .ok [("k", PVal.vstr "v")] := by
  have h := styles_set_validation Styles.init "x"
  exact ⟨h.1 (PVal.vnum 5) rfl, h.2.1 (PVal.vnum 5) rfl rfl,
    (h.2.2 [("k", PVal.vstr "v")]).1⟩

/-! ### C8: attribute passthrough -/

/-- C8: attribute lookup on the registry not otherwise defined on it is
forwarded to the same-named attribute of the current style (`__getattr__`
is only consulted for such attributes, and delegates to
`DotDict.__getattr__` of the current style), so it yields exactly
`currentStyle[attr]` when that key is present and fails with the
attribute-not-found error when the current style lacks the key. -/
theorem styles_attr_passthrough (s : StylesState) (attr : String) (d : PyDict)
    (hcur : Styles.current_style s = .ok d) :
    (∀ v, dlookup d attr = some v → Styles.getattrPy s attr = .ok v)
    ∧ (dlookup d attr = none →
        Styles.getattrPy s attr = .error (.attributeError attr)) := by
  constructor
  · intro v hv
    unfold Styles.getattrPy
    rw [hcur]
    show DotDict.getattr d attr = _
    unfold DotDict.getattr
    rw [hv]
  · intro hv
    unfold Styles.getattrPy
    rw [hcur]
    show DotDict.getattr d attr = _
    unfold DotDict.getattr
    rw [hv]

/-- The concrete registry state for the C8 witness: the default style holds
a `canvas` group. -/
def sC8 : StylesState :=
  { stack := [], styles := [("default", [("canvas", PVal.vdict [])])] }

/-- Witness for C8: `styles.canvas` returns the `canvas` entry of the
current style. -/
theorem styles_attr_passthrough_witness :
    Styles.getattrPy sC8 "canvas" = .ok (PVal.vdict []) :=
  (styles_attr_passthrough sC8 "canvas" [("canvas", PVal.vdict [])] rfl).1
    (PVal.vdict []) rfl

/-! ### C10: pad-coordinate validation -/

/-- C10: for every horizontal position argument outside `("l", "c", "r")` —
and, with a valid horizontal position, every vertical position outside
`("t", "c", "b")` — `get_pad_coordinates` fails with `ValueError` naming
the bad value and its allowed values; the failure holds for every registry
state whatsoever, so it happens before any style property is read or any
coordinate computed. For valid positions, whenever the four pad margins of
the current style read as numbers, the function returns an `(x, y)` pair. -/
theorem get_pad_coordinates_validation (st : StylesState) (h v : Char)
    (offset : Rat) (h_offset v_offset : Option Rat) :
    (h ∉ (['l', 'c', 'r'] : List Char) →
      get_pad_coordinates st h v offset h_offset v_offset =
        .error (.valueError ("unknown horizontal position '" ++ String.singleton h ++
          "', allowed values are ('l', 'c', 'r')")))
    ∧ (h ∈ (['l', 'c', 'r'] : List Char) → v ∉ (['t', 'c', 'b'] : List Char) →
      get_pad_coordinates st h v offset h_offset v_offset =
        .error (.valueError ("unknown vertical position '" ++ String.singleton v ++
          "', allowed values are ('t', 'c', 'b')")))
    ∧ (∀ lm rm tm bm : Rat,
        padAttr st "LeftMargin" = .ok lm →
        padAttr st "RightMargin" = .ok rm →
        padAttr st "TopMargin" = .ok tm →
        padAttr st "BottomMargin" = .ok bm →
        h ∈ (['l', 'c', 'r'] : List Char) → v ∈ (['t', 'c', 'b'] : List Char) →
        ∃ x y : Rat,
          get_pad_coordinates st h v offset h_offset v_offset = .ok (x, y)) := by
  refine ⟨?_, ?_, ?_⟩
  · intro hh
    unfold get_pad_coordinates
    rw [if_pos hh]
  · intro hh hv
    unfold get_pad_coordinates
    rw [if_neg (not_not_intro hh), if_pos hv]
  · intro lm rm tm bm hlm hrm htm hbm hh hv
    have hx : ∃ x, padX st h (h_offset.getD offset) = Except.ok x := by
      have hh2 := hh
      simp only [List.mem_cons, List.not_mem_nil, or_false] at hh2
      rcases hh2 with rfl | rfl | rfl
      · refine ⟨lm + h_offset.getD offset, ?_⟩
        unfold padX
        rw [if_pos (by decide), hlm]
        rfl
      · refine ⟨(1 - rm + lm) / 2, ?_⟩
        unfold padX
        rw [if_neg (by decide), if_pos (by decide), hrm, hlm]
        rfl
      · refine ⟨1 - rm - h_offset.getD offset, ?_⟩
        unfold padX
        rw [if_neg (by decide), if_neg (by decide), hrm]
        rfl
    have hy : ∃ y, padY st v (v_offset.getD offset) = Except.ok y := by
      have hv2 := hv
      simp only [List.mem_cons, List.not_mem_nil, or_false] at hv2
      rcases hv2 with rfl | rfl | rfl
      · refine ⟨1 - tm - v_offset.getD offset, ?_⟩
        unfold padY
        rw [if_pos (by decide), htm]
        rfl
      · refine ⟨(1 - tm + bm) / 2, ?_⟩
        unfold padY
        rw [if_neg (by decide), if_pos (by decide), htm, hbm]
        rfl
      · refine ⟨bm + v_offset.getD offset, ?_⟩
        unfold padY
        rw [if_neg (by decide), if_neg (by decide), hbm]
        rfl
    obtain ⟨x, hx⟩ := hx
    obtain ⟨y, hy⟩ := hy
    refine ⟨x, y, ?_⟩
    unfold get_pad_coordinates
    rw [if_neg (not_not_intro hh), if_neg (not_not_intro hv)]
    simp only [hx, hy]
    rfl

/-- The concrete registry state for the C10 witness: a default style with
the four pad margins. -/
def stC10 : StylesState :=
  { stack := [],
    styles := [("default",
      [("pad", PVal.vdict
        [("LeftMargin", PVal.vnum (1 / 10)),
         ("RightMargin", PVal.vnum (1 / 20)),
         ("TopMargin", PVal.vnum (3 / 40)),
         ("BottomMargin", PVal.vnum (3 / 25))])])] }

/-- Witness for C10: the bad horizontal position `x` is rejected with the
message naming it, and the valid pair `("l", "t")` yields coordinates. -/
theorem get_pad_coordinates_validation_witness :
    get_pad_coordinates stC10 'x' 't' (1 / 200) none none
      = .error (.valueError
          "unknown horizontal position 'x', allowed values are ('l', 'c', 'r')")
    ∧ ∃ x y : Rat,
        get_pad_coordinates stC10 'l' 't' (1 / 200) none none = .ok (x, y) :=
  ⟨(get_pad_coordinates_validation stC10 'x' 't' (1 / 200) none none).1 (by decide),
   (get_pad_coordinates_validation stC10 'l' 't' (1 / 200) none none).2.2
     (1 / 10) (1 / 20) (3 / 40) (3 / 25) rfl rfl rfl rfl (by decide) (by decide)⟩

end Plotlib
